import Mathlib

/-!
Verification of the CubeMaker node-registration script
(`RegisterCubeMakerNode.py`).

The script registers a "CubeMaker" node type with a host application: it
declares a four-entry parameter template and a build callback
(`buildCubeMakerOpChain`) that encodes the node's current parameter values
into a nested attribute hierarchy and appends a single operation to the
node's operation chain.

The embedding below follows the source line by line:

* `FnAttr` models the `FnAttribute` scalar attribute constructors
  (`IntAttribute`, `DoubleAttribute`, `StringAttribute`); double values are
  modelled as rationals (the script only passes them through, it performs
  no floating-point arithmetic).
* `GroupBuilder` models `FnAttribute.GroupBuilder` as an accumulator of
  (dotted path, attribute) pairs; `build` returns the accumulated group.
* `Node` models the node handle: each of the four named parameters is
  either absent (`none`) or present as a value queryable at a frame time
  (`getParameter` / `Parameter.getValue`).
* `buildCubeMakerOpChain` models the callback.  Effects on the build
  interface are recorded in a `BuildResult`: the list of
  `setMinRequiredInputs` calls, the list of `appendOp` calls, and a
  `success` flag that is `false` exactly when the Python code would raise
  by dereferencing an absent parameter (`None.getValue(...)`), aborting
  the invocation before reaching `appendOp`.
-/

namespace CubeMaker

/-- Scalar attribute values, mirroring the `FnAttribute` constructors used
by the script. -/
inductive FnAttr where
  | IntAttribute (value : Int)
  | DoubleAttribute (value : Rat)
  | StringAttribute (value : String)
deriving DecidableEq, Repr

/-- A built group attribute: the (dotted path, attribute) pairs that were
set on the builder, in order. -/
abbrev GroupAttribute := List (String × FnAttr)

/-- Accumulator mirroring `FnAttribute.GroupBuilder`. -/
structure GroupBuilder where
  entries : List (String × FnAttr)
deriving DecidableEq, Repr

/-- `gb.set(path, attr)` records one attribute at a dotted path. -/
def GroupBuilder.set (gb : GroupBuilder) (path : String) (attr : FnAttr) :
    GroupBuilder :=
  ⟨gb.entries ++ [(path, attr)]⟩

/-- `gb.build()` produces the group attribute accumulated so far. -/
def GroupBuilder.build (gb : GroupBuilder) : GroupAttribute :=
  gb.entries

/-- The node handle seen by the callback: each named parameter of the
CubeMaker parameter template is either absent or a time-indexed value
(`Parameter.getValue(frameTime)`).  Types follow the template:
`location` string, `numberOfCubes` and `rotateCubes` integer,
`maxRotation` double. -/
structure Node where
  location : Option (Rat → String)
  numberOfCubes : Option (Rat → Int)
  rotateCubes : Option (Rat → Int)
  maxRotation : Option (Rat → Rat)

/-- The effects of one callback invocation on the build interface:
every `setMinRequiredInputs` call, every `appendOp` call (operation name
and argument group), and whether the invocation ran to completion
(`success = false` models a raised missing-parameter dereference, which
truncates the effect trace). -/
structure BuildResult where
  minRequiredInputs : List Nat
  ops : List (String × GroupAttribute)
  success : Bool
deriving DecidableEq, Repr

/-- Python `str.split('/')` on the character list: every occurrence of
the separator splits, empty segments are kept, and the empty input yields
one empty segment (CPython: `''.split('/') == ['']`).  Implemented by
structural recursion so that it evaluates inside the kernel. -/
def splitOnSlash : List Char → List (List Char)
  | [] => [[]]
  | c :: cs =>
      if c = '/' then
        [] :: splitOnSlash cs
      else
        match splitOnSlash cs with
        | [] => [[c]]
        | s :: ss => (c :: s) :: ss

/-- `location.split('/')` as a `String` operation. -/
def splitSlash (s : String) : List String :=
  (splitOnSlash s.data).map (fun l => ⟨l⟩)

/-- `locationPaths` from the callback:
`location[1:].split('/')[1:]` — strip the leading character, split on
`/`, drop the first resulting segment. -/
def locationPaths (location : String) : List String :=
  (splitSlash (location.drop 1)).drop 1

/-- `attrsHierarchy` from the callback:
`'.'.join([x for t in zip(['c'] * len(locationPaths), locationPaths) for x in t])`
— interleave a `'c'` token with each segment and join with dots. -/
def attrsHierarchy (location : String) : String :=
  String.intercalate "."
    (((List.replicate (locationPaths location).length "c").zip
        (locationPaths location)).flatMap (fun t => [t.1, t.2]))

/-- The callback `buildCubeMakerOpChain(node, interface)`.  `frameTime` is
the value of `interface.getGraphState().getTime()`.  The translation keeps
the source's order of events: `setMinRequiredInputs(0)` first; then, only
when the `location` parameter exists, the hierarchy is built —
dereferencing `numberOfCubesParam`, then `rotateCubesParam`, and
`maxRotationParam` only when the rotate value equals 1; finally
`appendOp('CubeMaker', argsGb.build())`.  A dereference of an absent
parameter aborts with the effects performed so far. -/
def buildCubeMakerOpChain (node : Node) (frameTime : Rat) : BuildResult :=
  match node.location with
  | none =>
      ⟨[0], [("CubeMaker", GroupBuilder.build ⟨[]⟩)], true⟩
  | some locationParam =>
      let location := locationParam frameTime
      match node.numberOfCubes with
      | none => ⟨[0], [], false⟩
      | some numberOfCubesParam =>
          let argsGb := GroupBuilder.set ⟨[]⟩
            (attrsHierarchy location ++ ".a.numberOfCubes")
            (FnAttr.IntAttribute (numberOfCubesParam frameTime))
          match node.rotateCubes with
          | none => ⟨[0], [], false⟩
          | some rotateCubesParam =>
              if rotateCubesParam frameTime = 1 then
                match node.maxRotation with
                | none => ⟨[0], [], false⟩
                | some maxRotationParam =>
                    ⟨[0],
                     [("CubeMaker",
                       (argsGb.set (attrsHierarchy location ++ ".a.maxRotation")
                         (FnAttr.DoubleAttribute (maxRotationParam frameTime))).build)],
                     true⟩
              else
                ⟨[0], [("CubeMaker", argsGb.build)], true⟩

/-- The parameter template built by `registerCubeMaker` (lines 68–76 of
the source): four `GroupBuilder.set` calls with the fixed defaults,
finalised by `build`. -/
def parametersTemplate : GroupAttribute :=
  ((((GroupBuilder.mk []).set "location"
      (FnAttr.StringAttribute "/root/world/geo/cubeMaker")).set
    "numberOfCubes" (FnAttr.IntAttribute 20)).set
    "rotateCubes" (FnAttr.IntAttribute 0)).set
    "maxRotation" (FnAttr.DoubleAttribute 0)
  |>.build

/-- The observable parameter state of a node at one frame time: presence
and value of each of the four parameters.  The callback reads parameters
only through `getValue(frameTime)`, so its result should be a function of
this tuple. -/
def paramObservations (node : Node) (t : Rat) :
    Option String × Option Int × Option Int × Option Rat :=
  (node.location.map (fun f => f t),
   node.numberOfCubes.map (fun f => f t),
   node.rotateCubes.map (fun f => f t),
   node.maxRotation.map (fun f => f t))

/-! Helper lemmas shared by the claim theorems. -/

/-- Appending to a fixed string on the left is injective. -/
lemma string_append_left_cancel {h a b : String} (he : h ++ a = h ++ b) :
    a = b := by
  have hd := congrArg String.data he
  simp only [String.data_append] at hd
  exact String.ext (List.append_cancel_left hd)

/-- Under any hierarchy prefix, the `numberOfCubes` key differs from the
`maxRotation` key. -/
lemma numberOfCubes_key_ne {h : String} :
    h ++ ".a.numberOfCubes" ≠ h ++ ".a.maxRotation" := by
  intro he
  have : (".a.numberOfCubes" : String) = ".a.maxRotation" :=
    string_append_left_cancel he
  exact absurd (congrArg String.length this) (by decide)

/-- Zipping a same-length replication of `"c"` with a segment list and
flattening the pairs interleaves a `"c"` before each segment. -/
lemma interleave_replicate_c (l : List String) :
    ((List.replicate l.length "c").zip l).flatMap (fun t => [t.1, t.2]) =
      l.flatMap (fun s => ["c", s]) := by
  induction l with
  | nil => rfl
  | cons a l ih =>
      simp only [List.length_cons, List.replicate_succ, List.zip_cons_cons,
        List.flatMap_cons, ih]

/-- Claim C7: every invocation of the callback, whatever the parameter
values or presence and whether or not it aborts, calls
`setMinRequiredInputs` exactly once, with the value 0. -/
theorem min_required_inputs_always_zero (node : Node) (t : Rat) :
    (buildCubeMakerOpChain node t).minRequiredInputs = [0] := by
  rcases node with ⟨l, n0, r0, m0⟩
  cases l <;> cases n0 <;> cases r0 <;> cases m0 <;>
    simp only [buildCubeMakerOpChain] <;>
    first
      | rfl
      | (split <;> rfl)

/-- Claim C8: registration builds a parameter template of exactly four
entries with the fixed defaults: `location` string
`/root/world/geo/cubeMaker`, `numberOfCubes` integer 20, `rotateCubes`
integer 0, `maxRotation` double 0. -/
theorem parameters_template_four_defaults :
    parametersTemplate =
      [("location", FnAttr.StringAttribute "/root/world/geo/cubeMaker"),
       ("numberOfCubes", FnAttr.IntAttribute 20),
       ("rotateCubes", FnAttr.IntAttribute 0),
       ("maxRotation", FnAttr.DoubleAttribute 0)] ∧
    parametersTemplate.length = 4 :=
  ⟨rfl, rfl⟩

/-- Claim C1: with the `location` parameter present, the derived attribute
path interleaves a fixed `c` token with each path segment obtained by
stripping the leading character, splitting on `/` and dropping the first
segment; for `location = "/root/world/geo/cubeMaker"` the segments are
`["world","geo","cubeMaker"]` and `numberOfCubes` is set at
`c.world.c.geo.c.cubeMaker.a.numberOfCubes`. -/
theorem location_path_interleaving (node : Node) (t : Rat)
    (f : Rat → String) (g : Rat → Int) (r : Rat → Int) (m : Rat → Rat)
    (hl : node.location = some f) (hn : node.numberOfCubes = some g)
    (hr : node.rotateCubes = some r) (hm : node.maxRotation = some m)
    (hv : f t = "/root/world/geo/cubeMaker") :
    (∀ loc : String, attrsHierarchy loc =
        String.intercalate "."
          ((locationPaths loc).flatMap (fun s => ["c", s]))) ∧
    locationPaths (f t) = ["world", "geo", "cubeMaker"] ∧
    attrsHierarchy (f t) = "c.world.c.geo.c.cubeMaker" ∧
    ∃ args, (buildCubeMakerOpChain node t).ops = [("CubeMaker", args)] ∧
      ("c.world.c.geo.c.cubeMaker.a.numberOfCubes",
        FnAttr.IntAttribute (g t)) ∈ args := by
  refine ⟨fun loc => ?_, ?_, ?_, ?_⟩
  · unfold attrsHierarchy
    rw [interleave_replicate_c]
  · rw [hv]
    decide
  · rw [hv]
    decide
  · simp only [buildCubeMakerOpChain, hl, hn, hr, hm, GroupBuilder.set,
      GroupBuilder.build, List.nil_append]
    by_cases hrt : r t = 1
    · rw [if_pos hrt, hv]
      exact ⟨_, rfl, List.mem_cons_self _ _⟩
    · rw [if_neg hrt, hv]
      exact ⟨_, rfl, List.mem_cons_self _ _⟩

/-- Claim C1 witness: the concrete segment list and attribute path for
the default location. -/
theorem location_path_interleaving_witness :
    locationPaths "/root/world/geo/cubeMaker" = ["world", "geo", "cubeMaker"] ∧
    attrsHierarchy "/root/world/geo/cubeMaker" = "c.world.c.geo.c.cubeMaker" := by
  have h := location_path_interleaving
    ⟨some (fun _ => "/root/world/geo/cubeMaker"), some (fun _ => 20),
     some (fun _ => 0), some (fun _ => 0)⟩ 0
    (fun _ => "/root/world/geo/cubeMaker") (fun _ => 20) (fun _ => 0)
    (fun _ => 0) rfl rfl rfl rfl rfl
  exact ⟨h.2.1, h.2.2.1⟩

/-- Claim C3: with the `location` parameter present (and the node carrying
all four template parameters), the built hierarchy has an entry at the
`maxRotation` key if and only if the `rotateCubes` value at the evaluation
time equals 1; when it does, the entry's value is the double value of the
`maxRotation` parameter at that time, alongside the `numberOfCubes`
entry. -/
theorem maxRotation_key_iff_rotate (node : Node) (t : Rat)
    (f : Rat → String) (g : Rat → Int) (r : Rat → Int) (m : Rat → Rat)
    (hl : node.location = some f) (hn : node.numberOfCubes = some g)
    (hr : node.rotateCubes = some r) (hm : node.maxRotation = some m) :
    ∃ args, (buildCubeMakerOpChain node t).ops = [("CubeMaker", args)] ∧
      ((∃ v, (attrsHierarchy (f t) ++ ".a.maxRotation", v) ∈ args) ↔
        r t = 1) ∧
      (r t = 1 →
        (attrsHierarchy (f t) ++ ".a.maxRotation",
          FnAttr.DoubleAttribute (m t)) ∈ args) ∧
      (attrsHierarchy (f t) ++ ".a.numberOfCubes",
        FnAttr.IntAttribute (g t)) ∈ args := by
  simp only [buildCubeMakerOpChain, hl, hn, hr, hm, GroupBuilder.set,
    GroupBuilder.build, List.nil_append]
  by_cases hrt : r t = 1
  · rw [if_pos hrt]
    refine ⟨_, rfl, ?_, ?_, List.mem_cons_self _ _⟩
    · exact iff_of_true
        ⟨FnAttr.DoubleAttribute (m t), List.mem_cons_of_mem _ (List.mem_cons_self _ _)⟩
        hrt
    · exact fun _ => List.mem_cons_of_mem _ (List.mem_cons_self _ _)
  · rw [if_neg hrt]
    refine ⟨_, rfl, ?_, fun h => absurd h hrt, List.mem_cons_self _ _⟩
    constructor
    · rintro ⟨v, hv⟩
      rw [List.mem_singleton, Prod.mk.injEq] at hv
      exact absurd hv.1.symm numberOfCubes_key_ne
    · exact fun h => absurd h hrt

/-- Claim C3 witness: for `rotateCubes = 1` and `maxRotation = 15`, the
hierarchy contains the `maxRotation` entry with value 15 alongside
`numberOfCubes`. -/
theorem maxRotation_key_iff_rotate_witness :
    ∃ args, (buildCubeMakerOpChain
        ⟨some (fun _ => "/root/world/geo/cubeMaker"), some (fun _ => 20),
         some (fun _ => 1), some (fun _ => 15)⟩ 0).ops =
        [("CubeMaker", args)] ∧
      ("c.world.c.geo.c.cubeMaker.a.maxRotation",
        FnAttr.DoubleAttribute 15) ∈ args ∧
      ("c.world.c.geo.c.cubeMaker.a.numberOfCubes",
        FnAttr.IntAttribute 20) ∈ args := by
  obtain ⟨args, hops, _, hmr, hnc⟩ := maxRotation_key_iff_rotate
    ⟨some (fun _ => "/root/world/geo/cubeMaker"), some (fun _ => 20),
     some (fun _ => 1), some (fun _ => 15)⟩ 0
    (fun _ => "/root/world/geo/cubeMaker") (fun _ => 20) (fun _ => 1)
    (fun _ => 15) rfl rfl rfl rfl
  exact ⟨args, hops, hmr rfl, hnc⟩

/-- Claim C4: whenever an invocation of the callback runs to completion it
appends exactly one operation, named `CubeMaker`, whose argument is the
built (possibly empty) hierarchy; an aborted invocation appends nothing;
the append in particular happens when the `location` parameter is absent
(with empty arguments), and on every invocation of a node carrying all
four template parameters. -/
theorem single_op_appended (node : Node) (t : Rat) :
    ((buildCubeMakerOpChain node t).success = true →
      ∃ args, (buildCubeMakerOpChain node t).ops = [("CubeMaker", args)]) ∧
    ((buildCubeMakerOpChain node t).success = false →
      (buildCubeMakerOpChain node t).ops = []) ∧
    (node.location = none →
      (buildCubeMakerOpChain node t).success = true ∧
      (buildCubeMakerOpChain node t).ops = [("CubeMaker", [])]) ∧
    (∀ f g r m, node.location = some f → node.numberOfCubes = some g →
      node.rotateCubes = some r → node.maxRotation = some m →
      (buildCubeMakerOpChain node t).success = true) := by
  rcases node with ⟨l, n0, r0, m0⟩
  cases l <;> cases n0 <;> cases r0 <;> cases m0 <;>
    simp only [buildCubeMakerOpChain, GroupBuilder.set, GroupBuilder.build,
      List.nil_append] <;>
    first
      | (split <;> simp)
      | simp

/-- Claim C4 witness: with the `location` parameter absent the callback
completes and appends the single `CubeMaker` operation with empty
arguments. -/
theorem single_op_appended_witness :
    (buildCubeMakerOpChain ⟨none, none, none, none⟩ 0).ops =
      [("CubeMaker", [])] :=
  ((single_op_appended ⟨none, none, none, none⟩ 0).2.2.1 rfl).2

/-- Claim C2 counterexample: a node whose `location` parameter is present
with the empty string as its value still gets `numberOfCubes` encoded (at
path `.a.numberOfCubes`), so the appended operation's argument hierarchy
is not empty.  The guard in the source tests only the presence of the
parameter, not that its value is non-empty. -/
theorem empty_location_value_not_empty_args :
    (buildCubeMakerOpChain
        ⟨some (fun _ => ""), some (fun _ => 20),
         some (fun _ => 0), some (fun _ => 0)⟩ 0).ops =
      [("CubeMaker", [(".a.numberOfCubes", FnAttr.IntAttribute 20)])] ∧
    [(".a.numberOfCubes", FnAttr.IntAttribute 20)] ≠ ([] : GroupAttribute) :=
  ⟨rfl, by simp⟩

/-- Claim C2 as amended: only when the `location` parameter is absent does
the appended operation receive an empty argument hierarchy (regardless of
the other parameters); when `location` is present with the empty string as
its value, the hierarchy is not empty: `numberOfCubes` is set at
`.a.numberOfCubes`. -/
theorem empty_args_iff_location_absent (node : Node) (t : Rat) :
    (node.location = none →
      buildCubeMakerOpChain node t = ⟨[0], [("CubeMaker", [])], true⟩) ∧
    (∀ f g r m, node.location = some f → f t = "" →
      node.numberOfCubes = some g → node.rotateCubes = some r →
      node.maxRotation = some m →
      ∃ args, (buildCubeMakerOpChain node t).ops = [("CubeMaker", args)] ∧
        (".a.numberOfCubes", FnAttr.IntAttribute (g t)) ∈ args ∧
        args ≠ []) := by
  constructor
  · intro h
    simp only [buildCubeMakerOpChain, h]
    rfl
  · intro f g r m hl hv hn hr hm
    simp only [buildCubeMakerOpChain, hl, hn, hr, hm, GroupBuilder.set,
      GroupBuilder.build, List.nil_append, hv]
    by_cases hrt : r t = 1
    · rw [if_pos hrt]
      exact ⟨_, rfl, List.mem_cons_self _ _, by simp⟩
    · rw [if_neg hrt]
      exact ⟨_, rfl, List.mem_cons_self _ _, by simp⟩

/-- Claim C2 witness (amended): with `location` absent the whole build
result is the empty-argument append. -/
theorem empty_args_iff_location_absent_witness :
    buildCubeMakerOpChain ⟨none, some (fun _ => 20), some (fun _ => 1),
        some (fun _ => 15)⟩ 0 =
      ⟨[0], [("CubeMaker", [])], true⟩ :=
  (empty_args_iff_location_absent
    ⟨none, some (fun _ => 20), some (fun _ => 1), some (fun _ => 15)⟩ 0).1 rfl

/-- Claim C5 counterexample: with `location` present, `rotateCubes`
present with value 0 and `maxRotation` absent, the callback does not
abort — the `maxRotation` parameter is never dereferenced, so a missing
sibling parameter does not always abort the invocation. -/
theorem missing_maxRotation_no_abort :
    ((⟨some (fun _ => "/root/world/geo/cubeMaker"), some (fun _ => 20),
        some (fun _ => 0), none⟩ : Node).maxRotation = none) ∧
    (buildCubeMakerOpChain
        ⟨some (fun _ => "/root/world/geo/cubeMaker"), some (fun _ => 20),
         some (fun _ => 0), none⟩ 0).success = true :=
  ⟨rfl, rfl⟩

/-- Claim C5 as amended: with the `location` parameter present, the
callback aborts on the unguarded dereference of whichever absent
parameter it actually reads — always when `numberOfCubes` or
`rotateCubes` is absent, and when `maxRotation` is absent exactly when
the `rotateCubes` value equals 1; an aborted invocation appends no
operation, and the callback raises no error explicitly on any path. -/
theorem abort_on_dereferenced_missing_param (node : Node) (t : Rat)
    (f : Rat → String) (hl : node.location = some f) :
    (node.numberOfCubes = none →
      (buildCubeMakerOpChain node t).success = false ∧
      (buildCubeMakerOpChain node t).ops = []) ∧
    (∀ g, node.numberOfCubes = some g → node.rotateCubes = none →
      (buildCubeMakerOpChain node t).success = false ∧
      (buildCubeMakerOpChain node t).ops = []) ∧
    (∀ g r, node.numberOfCubes = some g → node.rotateCubes = some r →
      node.maxRotation = none →
      ((buildCubeMakerOpChain node t).success = false ↔ r t = 1)) := by
  refine ⟨fun hn => ?_, fun g hn hr => ?_, fun g r hn hr hm => ?_⟩
  · simp [buildCubeMakerOpChain, hl, hn]
  · simp [buildCubeMakerOpChain, hl, hn, hr]
  · simp only [buildCubeMakerOpChain, hl, hn, hr, hm]
    by_cases hrt : r t = 1
    · rw [if_pos hrt]
      simp [hrt]
    · rw [if_neg hrt]
      simp [hrt]

/-- Claim C5 witness (amended): with `location` present, `rotateCubes`
present with value 1 and `maxRotation` absent, the invocation aborts. -/
theorem abort_on_dereferenced_missing_param_witness :
    (buildCubeMakerOpChain
        ⟨some (fun _ => "/root/world/geo/cubeMaker"), some (fun _ => 20),
         some (fun _ => 1), none⟩ 0).success = false :=
  ((abort_on_dereferenced_missing_param
      ⟨some (fun _ => "/root/world/geo/cubeMaker"), some (fun _ => 20),
       some (fun _ => 1), none⟩ 0
      (fun _ => "/root/world/geo/cubeMaker") rfl).2.2
    (fun _ => 20) (fun _ => 1) rfl rfl rfl).mpr rfl

/-- Claim C9: when the `location` value, after dropping its first
character and splitting on `/`, yields fewer than two components, the
derived segment list is empty, the interleaved hierarchy path is the
empty string, and `numberOfCubes` is still set — at path
`.a.numberOfCubes` — so the argument hierarchy is not empty. -/
theorem short_location_degenerate_path (node : Node) (t : Rat)
    (f : Rat → String) (g : Rat → Int) (r : Rat → Int) (m : Rat → Rat)
    (hl : node.location = some f) (hn : node.numberOfCubes = some g)
    (hr : node.rotateCubes = some r) (hm : node.maxRotation = some m)
    (hshort : (splitSlash ((f t).drop 1)).length < 2) :
    locationPaths (f t) = [] ∧
    attrsHierarchy (f t) = "" ∧
    ∃ args, (buildCubeMakerOpChain node t).ops = [("CubeMaker", args)] ∧
      (".a.numberOfCubes", FnAttr.IntAttribute (g t)) ∈ args ∧
      args ≠ [] := by
  have hpaths : locationPaths (f t) = [] := by
    unfold locationPaths
    exact List.drop_eq_nil_iff.mpr (Nat.le_of_lt_succ hshort)
  have hhier : attrsHierarchy (f t) = "" := by
    unfold attrsHierarchy
    rw [hpaths]
    rfl
  have hkey : attrsHierarchy (f t) ++ ".a.numberOfCubes" =
      ".a.numberOfCubes" := by
    rw [hhier]
    rfl
  refine ⟨hpaths, hhier, ?_⟩
  simp only [buildCubeMakerOpChain, hl, hn, hr, hm, GroupBuilder.set,
    GroupBuilder.build, List.nil_append, hkey]
  by_cases hrt : r t = 1
  · rw [if_pos hrt]
    exact ⟨_, rfl, List.mem_cons_self _ _, by simp⟩
  · rw [if_neg hrt]
    exact ⟨_, rfl, List.mem_cons_self _ _, by simp⟩

/-- Claim C9 witness: for `location = "/root"` the segment list is empty
and the hierarchy path is the empty string. -/
theorem short_location_degenerate_path_witness :
    locationPaths "/root" = [] ∧ attrsHierarchy "/root" = "" := by
  have h := short_location_degenerate_path
    ⟨some (fun _ => "/root"), some (fun _ => 20), some (fun _ => 0),
     some (fun _ => 0)⟩ 0
    (fun _ => "/root") (fun _ => 20) (fun _ => 0) (fun _ => 0)
    rfl rfl rfl rfl (by decide)
  exact ⟨h.1, h.2.1⟩

/-- Claim C10: with `location` present, the `maxRotation` parameter is
read only when the `rotateCubes` value equals 1 — when it differs from 1
the invocation completes with just the `numberOfCubes` entry even if
`maxRotation` is absent — whereas `numberOfCubes` and `rotateCubes` are
always dereferenced in this branch, so their absence aborts. -/
theorem maxRotation_read_only_when_rotating (node : Node) (t : Rat) :
    (∀ f g r, node.location = some f → node.numberOfCubes = some g →
      node.rotateCubes = some r → r t ≠ 1 →
      (buildCubeMakerOpChain node t).success = true ∧
      (buildCubeMakerOpChain node t).ops =
        [("CubeMaker",
          [(attrsHierarchy (f t) ++ ".a.numberOfCubes",
            FnAttr.IntAttribute (g t))])]) ∧
    (∀ f, node.location = some f → node.numberOfCubes = none →
      (buildCubeMakerOpChain node t).success = false) ∧
    (∀ f g, node.location = some f → node.numberOfCubes = some g →
      node.rotateCubes = none →
      (buildCubeMakerOpChain node t).success = false) := by
  refine ⟨fun f g r hl hn hr hrt => ?_, fun f hl hn => ?_,
    fun f g hl hn hr => ?_⟩
  · simp only [buildCubeMakerOpChain, hl, hn, hr, GroupBuilder.set,
      GroupBuilder.build, List.nil_append]
    rw [if_neg hrt]
    exact ⟨rfl, rfl⟩
  · simp [buildCubeMakerOpChain, hl, hn]
  · simp [buildCubeMakerOpChain, hl, hn, hr]

/-- Claim C10 witness: with `maxRotation` absent and `rotateCubes = 0`,
the invocation completes successfully. -/
theorem maxRotation_read_only_when_rotating_witness :
    (buildCubeMakerOpChain
        ⟨some (fun _ => "/root/world/geo/cubeMaker"), some (fun _ => 20),
         some (fun _ => 0), none⟩ 0).success = true :=
  ((maxRotation_read_only_when_rotating
      ⟨some (fun _ => "/root/world/geo/cubeMaker"), some (fun _ => 20),
       some (fun _ => 0), none⟩ 0).1
    (fun _ => "/root/world/geo/cubeMaker") (fun _ => 20) (fun _ => 0)
    rfl rfl rfl (by decide)).1

/-- Claim C6: the callback is a deterministic function of the parameter
state observable at the evaluation time — two invocations whose nodes
agree on presence and value of each of the four parameters at that time
produce identical build results (in particular identical appended
operation arguments). -/
theorem build_deterministic (n1 n2 : Node) (t : Rat)
    (h : paramObservations n1 t = paramObservations n2 t) :
    buildCubeMakerOpChain n1 t = buildCubeMakerOpChain n2 t := by
  rcases n1 with ⟨l1, c1, r1, m1⟩
  rcases n2 with ⟨l2, c2, r2, m2⟩
  simp only [paramObservations, Prod.mk.injEq] at h
  obtain ⟨hl, hc, hr, hm⟩ := h
  cases l1 <;> cases l2 <;> cases c1 <;> cases c2 <;> cases r1 <;>
    cases r2 <;> cases m1 <;> cases m2 <;>
    simp_all [buildCubeMakerOpChain]

/-- Claim C6 witness: two syntactically different nodes with the same
observations at time 0 yield the same build result. -/
theorem build_deterministic_witness :
    buildCubeMakerOpChain
        ⟨some (fun _ => "/root/world/geo/cubeMaker"), some (fun _ => 20),
         some (fun _ => 1), some (fun _ => 15)⟩ 0 =
      buildCubeMakerOpChain
        ⟨some (fun _ => "/root" ++ "/world/geo/cubeMaker"),
         some (fun _ => 19 + 1), some (fun _ => 2 - 1), some (fun _ => 15)⟩ 0 :=
  build_deterministic _ _ 0 (by decide)

end CubeMaker
